import Mathlib

/-!
Verification of the heat-balance calculator of the hot-blast stove
dashboard (src/main.py).  Python floats are embedded as exact rationals;
operations that raise (IndexError on an empty selection) or produce NaN
(numpy mean of an empty array) are embedded as Option-valued functions
returning none in those cases.
-/

namespace Steel

/-- One row of the uploaded cycle dataframe, restricted to the fields the
claims under verification mention: the stove identifier used for filtering,
the timestamp column, and a numeric payload standing for the remaining
measurement columns. -/
structure MeasurementRecord where
  stove_id : String
  timestamp : ℚ
  payload : ℚ
  deriving DecidableEq, Repr

/-- Embeds get_latest_cycle (src/main.py line 9-10):
df[df[stove_id_col] == stove_id].iloc[-1].  Filtering keeps input order,
iloc[-1] takes the last row of the selection; on an empty selection pandas
raises IndexError, embedded as none. -/
def get_latest_cycle (df : List MeasurementRecord) (stove_id : String) :
    Option MeasurementRecord :=
  (df.filter (fun r => r.stove_id == stove_id)).getLast?

/-- Embeds numpy.mean over a list: sum divided by length.  numpy.mean of an
empty array yields NaN (no finite value), embedded as none. -/
def np_mean (xs : List ℚ) : Option ℚ :=
  if xs = [] then none else some (xs.sum / xs.length)

/-- Embeds get_condition_index (src/main.py line 15-16):
np.mean(efficiencies[-5:]) if len(efficiencies) >= 5 else
np.mean(efficiencies).  The Python slice [-5:] keeps the last five
elements, i.e. drops length - 5 from the front. -/
def get_condition_index (efficiencies : List ℚ) : Option ℚ :=
  if 5 ≤ efficiencies.length then
    np_mean (efficiencies.drop (efficiencies.length - 5))
  else
    np_mean efficiencies

/-- Embeds calculate_heat_input (src/main.py line 18-21). -/
def calculate_heat_input (m_fuel cv_fuel eta_comb m_air_comb cp_air
    t_air_comb t_ambient : ℚ) : ℚ × ℚ :=
  (m_fuel * cv_fuel * eta_comb,
   m_air_comb * cp_air * (t_air_comb - t_ambient))

/-- Embeds calculate_heat_output (src/main.py line 23-24). -/
def calculate_heat_output (m_air cp_air t_hot_blast t_ambient : ℚ) : ℚ :=
  m_air * cp_air * (t_hot_blast - t_ambient)

/-- Embeds calculate_flue_loss (src/main.py line 26-27). -/
def calculate_flue_loss (m_flue cp_flue t_flue t_ref : ℚ) : ℚ :=
  m_flue * cp_flue * (t_flue - t_ref)

/-- Embeds calculate_shell_loss (src/main.py line 29-32): a conduction term
k * A * (t_internal - t_surface) / d plus a Stefan-Boltzmann term
eps * sigma * A * ((t_surface + 273.15)^4 - (t_ambient + 273.15)^4). -/
def calculate_shell_loss (k A t_internal t_surface d eps sigma
    t_ambient : ℚ) : ℚ :=
  k * A * (t_internal - t_surface) / d
    + eps * sigma * A *
        ((t_surface + 273.15) ^ 4 - (t_ambient + 273.15) ^ 4)

/-- Embeds calculate_efficiency (src/main.py line 34-39): returns 0.0 when
Q_fuel + Q_air_comb <= 0, otherwise Q_blast / (Q_fuel + Q_air_comb)
clamped to [0, 1] by max(0.0, min(efficiency, 1.0)).  Q_flue and Q_shell
are accepted but never read. -/
def calculate_efficiency (Q_blast Q_fuel Q_air_comb Q_flue Q_shell : ℚ) :
    ℚ :=
  if Q_fuel + Q_air_comb ≤ 0 then 0
  else max 0 (min (Q_blast / (Q_fuel + Q_air_comb)) 1)

/-- The alert kinds the dashboard can emit (spec section 4.2); the code
emits them as colored warnings at src/main.py lines 131-134. -/
inductive AlertKind where
  | LowEfficiency
  | ShellOverheat
  deriving DecidableEq, Repr

/-- The threshold configuration (src/main.py lines 44-48). -/
structure Thresholds where
  efficiency_low : ℚ
  shell_temp_high : ℚ
  cycle_duration_long : ℚ
  deriving DecidableEq, Repr

/-- Embeds the module-level alert checks (src/main.py lines 131-134):
a LowEfficiency warning is emitted when eta_stove < eff_low, a
ShellOverheat warning when t_surface > shell_high; the set of emitted
warnings is collected as a list. -/
def evaluateAlerts (eta t_surface : ℚ) (th : Thresholds) :
    List AlertKind :=
  (if eta < th.efficiency_low then [AlertKind.LowEfficiency] else [])
    ++ (if th.shell_temp_high < t_surface then [AlertKind.ShellOverheat]
        else [])

/-- C1: calculate_efficiency always returns a value in [0, 1], for every
input, including inputs whose raw ratio would exceed 1 or be negative. -/
theorem calculate_efficiency_mem_unit_interval
    (Q_blast Q_fuel Q_air_comb Q_flue Q_shell : ℚ) :
    0 ≤ calculate_efficiency Q_blast Q_fuel Q_air_comb Q_flue Q_shell ∧
      calculate_efficiency Q_blast Q_fuel Q_air_comb Q_flue Q_shell ≤ 1 := by
  unfold calculate_efficiency
  split
  · exact ⟨le_refl 0, zero_le_one⟩
  · exact ⟨le_max_left 0 _, max_le zero_le_one (min_le_right _ 1)⟩

/-- C2: whenever Q_fuel + Q_air_comb <= 0, calculate_efficiency returns
exactly 0, whatever Q_blast, Q_flue and Q_shell are. -/
theorem calculate_efficiency_zero_of_nonpos_input
    (Q_blast Q_fuel Q_air_comb Q_flue Q_shell : ℚ)
    (h : Q_fuel + Q_air_comb ≤ 0) :
    calculate_efficiency Q_blast Q_fuel Q_air_comb Q_flue Q_shell = 0 := by
  unfold calculate_efficiency
  exact if_pos h

/-- Witness for C2 at Q_blast = 5, Q_fuel = -3, Q_air_comb = 2,
Q_flue = 7, Q_shell = 11. -/
theorem calculate_efficiency_zero_of_nonpos_input_witness :
    (-3 : ℚ) + 2 ≤ 0 ∧ calculate_efficiency 5 (-3) 2 7 11 = 0 :=
  ⟨by norm_num,
   calculate_efficiency_zero_of_nonpos_input 5 (-3) 2 7 11 (by norm_num)⟩

/-- C3: calculate_efficiency does not depend on Q_flue or Q_shell: two
calls agreeing on Q_blast, Q_fuel, Q_air_comb return the same value
however the loss terms differ. -/
theorem calculate_efficiency_ignores_losses
    (Q_blast Q_fuel Q_air_comb Q_flue₁ Q_shell₁ Q_flue₂ Q_shell₂ : ℚ) :
    calculate_efficiency Q_blast Q_fuel Q_air_comb Q_flue₁ Q_shell₁ =
      calculate_efficiency Q_blast Q_fuel Q_air_comb Q_flue₂ Q_shell₂ :=
  rfl

/-- C4: on a non-empty sequence, get_condition_index is the arithmetic mean
of the last 5 values when the length is at least 5, and the mean of all
values otherwise; in particular a length-3 input gives the mean of all 3
and a length-7 input gives the mean of only the last 5. -/
theorem get_condition_index_mean_spec (xs : List ℚ) (h : xs ≠ []) :
    (5 ≤ xs.length →
      get_condition_index xs
        = some ((xs.drop (xs.length - 5)).sum / 5)
      ∧ (xs.drop (xs.length - 5)).length = 5) ∧
    (xs.length < 5 →
      get_condition_index xs = some (xs.sum / xs.length)) ∧
    (∀ a b c : ℚ,
      get_condition_index [a, b, c] = some ((a + b + c) / 3)) ∧
    (∀ a b c d e f g : ℚ,
      get_condition_index [a, b, c, d, e, f, g]
        = some ((c + d + e + f + g) / 5)) := by
  refine ⟨fun h5 => ?_, fun h5 => ?_, fun a b c => ?_, fun a b c d e f g => ?_⟩
  · have hlen : (xs.drop (xs.length - 5)).length = 5 := by
      rw [List.length_drop]; omega
    have hne : xs.drop (xs.length - 5) ≠ [] := by
      intro hc
      rw [hc] at hlen
      simp at hlen
    refine ⟨?_, hlen⟩
    unfold get_condition_index np_mean
    rw [if_pos h5, if_neg hne, hlen]
    norm_num
  · unfold get_condition_index np_mean
    rw [if_neg (by omega), if_neg h]
  · unfold get_condition_index np_mean
    norm_num
    exact ⟨List.cons_ne_nil _ _, by ring⟩
  · unfold get_condition_index np_mean
    norm_num
    exact ⟨List.cons_ne_nil _ _, by ring⟩

/-- Witness for C4 at the length-3 input [1, 2, 3], whose mean is 2. -/
theorem get_condition_index_mean_spec_witness :
    get_condition_index [(1 : ℚ), 2, 3] = some 2 := by
  have h := (get_condition_index_mean_spec [(1 : ℚ), 2, 3]
    (by simp)).2.2.1 1 2 3
  rw [h]
  norm_num

/-- C8: get_condition_index on the empty sequence produces no value (numpy
yields NaN from the 0/0 mean, embedded as none), matching the spec's
EmptyInputError edge case. -/
theorem get_condition_index_empty :
    get_condition_index ([] : List ℚ) = none := rfl

/-- C6: when t_surface equals t_ambient the radiation term of
calculate_shell_loss vanishes for every eps, sigma and A, and the result
is exactly the conduction term k * A * (t_internal - t_surface) / d. -/
theorem calculate_shell_loss_radiation_cancels
    (k A t_internal d eps sigma t : ℚ) (hd : 0 < d) :
    calculate_shell_loss k A t_internal t d eps sigma t
      = k * A * (t_internal - t) / d := by
  unfold calculate_shell_loss
  ring

/-- Witness for C6 at k = 1, A = 2, t_internal = 10, t_surface =
t_ambient = 5, d = 1, eps = 3, sigma = 7. -/
theorem calculate_shell_loss_radiation_cancels_witness :
    (0 : ℚ) < 1 ∧
      calculate_shell_loss 1 2 10 5 1 3 7 5 = 1 * 2 * (10 - 5) / 1 :=
  ⟨by norm_num, calculate_shell_loss_radiation_cancels 1 2 10 1 3 7 5
    (by norm_num)⟩

/-- C9: calculate_heat_input returns the pair
(m_fuel * cv_fuel * eta_comb, m_air_comb * cp_air * (t_air_comb -
t_ambient)) with no clamping: when t_air_comb < t_ambient and m_air_comb
and cp_air are positive, the returned Q_air_comb is strictly negative. -/
theorem calculate_heat_input_no_clamp
    (m_fuel cv_fuel eta_comb m_air_comb cp_air t_air_comb t_ambient : ℚ) :
    calculate_heat_input m_fuel cv_fuel eta_comb m_air_comb cp_air
        t_air_comb t_ambient
      = (m_fuel * cv_fuel * eta_comb,
         m_air_comb * cp_air * (t_air_comb - t_ambient)) ∧
    (t_air_comb < t_ambient → 0 < m_air_comb → 0 < cp_air →
      (calculate_heat_input m_fuel cv_fuel eta_comb m_air_comb cp_air
        t_air_comb t_ambient).2 < 0) := by
  refine ⟨rfl, fun ht hm hc => ?_⟩
  have hneg : t_air_comb - t_ambient < 0 := sub_neg.mpr ht
  exact mul_neg_of_pos_of_neg (mul_pos hm hc) hneg

/-- Witness for C9 with m_air_comb = 1, cp_air = 1, t_air_comb = 0,
t_ambient = 5: the returned Q_air_comb is negative. -/
theorem calculate_heat_input_no_clamp_witness :
    (0 : ℚ) < 5 ∧ (calculate_heat_input 0 0 0 1 1 0 5).2 < 0 :=
  ⟨by norm_num,
   (calculate_heat_input_no_clamp 0 0 0 1 1 0 5).2 (by norm_num)
     (by norm_num) (by norm_num)⟩

/-- C10: for a fixed positive total input Q_fuel + Q_air_comb (and any
Q_flue, Q_shell), calculate_efficiency is monotone nondecreasing in
Q_blast: the clamp preserves the monotonicity of the ratio. -/
theorem calculate_efficiency_monotone_in_Q_blast
    (Q₁ Q₂ Q_fuel Q_air_comb Q_flue Q_shell : ℚ)
    (hpos : 0 < Q_fuel + Q_air_comb) (hle : Q₁ ≤ Q₂) :
    calculate_efficiency Q₁ Q_fuel Q_air_comb Q_flue Q_shell ≤
      calculate_efficiency Q₂ Q_fuel Q_air_comb Q_flue Q_shell := by
  unfold calculate_efficiency
  rw [if_neg (not_le.mpr hpos), if_neg (not_le.mpr hpos)]
  exact max_le_max le_rfl
    (min_le_min ((div_le_div_iff_of_pos_right hpos).mpr hle) le_rfl)

/-- Witness for C10 at Q_blast 1 ≤ 2 over total input 3 + 0 > 0. -/
theorem calculate_efficiency_monotone_in_Q_blast_witness :
    (0 : ℚ) < 3 + 0 ∧ (1 : ℚ) ≤ 2 ∧
      calculate_efficiency 1 3 0 7 8 ≤ calculate_efficiency 2 3 0 7 8 :=
  ⟨by norm_num, by norm_num,
   calculate_efficiency_monotone_in_Q_blast 1 2 3 0 7 8 (by norm_num)
     (by norm_num)⟩

/-- C5: evaluateAlerts emits LowEfficiency exactly when
eta < efficiency_low and ShellOverheat exactly when
t_surface > shell_temp_high (both strict); at eta = 0.65, t_surface = 160
with thresholds (0.70, 150) both alerts fire, and at eta = 0.80,
t_surface = 100 the alert set is empty. -/
theorem evaluateAlerts_spec :
    (∀ (eta t_surface : ℚ) (th : Thresholds),
      (AlertKind.LowEfficiency ∈ evaluateAlerts eta t_surface th ↔
        eta < th.efficiency_low) ∧
      (AlertKind.ShellOverheat ∈ evaluateAlerts eta t_surface th ↔
        th.shell_temp_high < t_surface)) ∧
    evaluateAlerts (65 / 100) 160 ⟨70 / 100, 150, 180⟩
      = [AlertKind.LowEfficiency, AlertKind.ShellOverheat] ∧
    evaluateAlerts (80 / 100) 100 ⟨70 / 100, 150, 180⟩ = [] := by
  refine ⟨fun eta t th => ?_, ?_, ?_⟩
  · by_cases h1 : eta < th.efficiency_low <;>
      by_cases h2 : th.shell_temp_high < t <;>
      simp [evaluateAlerts, h1, h2]
  · have h1 : (65 : ℚ) / 100 < 70 / 100 := by norm_num
    have h2 : (150 : ℚ) < 160 := by norm_num
    simp [evaluateAlerts, h1, h2]
  · have h1 : ¬ (80 : ℚ) / 100 < 70 / 100 := by norm_num
    have h2 : ¬ (150 : ℚ) < 100 := by norm_num
    simp [evaluateAlerts, h1, h2]

/-- Witness for C5: the LowEfficiency membership equivalence applied at
the concrete point eta = 0.65, t_surface = 160. -/
theorem evaluateAlerts_spec_witness :
    AlertKind.LowEfficiency
      ∈ evaluateAlerts (65 / 100) 160 ⟨70 / 100, 150, 180⟩ :=
  ((evaluateAlerts_spec.1 (65 / 100) 160 ⟨70 / 100, 150, 180⟩).1).mpr
    (by norm_num)

/-- If the last element of a filtered list is r, then r satisfies the
predicate and the original list splits as pre ++ r :: post with no element
of post satisfying the predicate: r is the last match by position. -/
theorem getLast?_filter_eq_some {α : Type} (p : α → Bool) (l : List α) :
    ∀ r : α, (l.filter p).getLast? = some r →
      p r = true ∧
        ∃ pre post, l = pre ++ r :: post ∧ ∀ x ∈ post, p x = false := by
  induction l with
  | nil => intro r h; simp at h
  | cons a tl ih =>
    intro r h
    by_cases hp : p a = true
    · rw [List.filter_cons_of_pos hp] at h
      cases htl : tl.filter p with
      | nil =>
        rw [htl] at h
        have ha : a = r := by simpa using h
        subst ha
        refine ⟨hp, [], tl, rfl, fun x hx => ?_⟩
        have hnx := List.filter_eq_nil_iff.mp htl x hx
        simpa using hnx
      | cons c l2 =>
        rw [htl, List.getLast?_cons_cons, ← htl] at h
        obtain ⟨hpr, pre, post, heq, hpost⟩ := ih r h
        exact ⟨hpr, a :: pre, post, by rw [heq, List.cons_append], hpost⟩
    · rw [List.filter_cons_of_neg hp] at h
      obtain ⟨hpr, pre, post, heq, hpost⟩ := ih r h
      exact ⟨hpr, a :: pre, post, by rw [heq, List.cons_append], hpost⟩

/-- C7: whenever get_latest_cycle returns a record r, that record carries
the requested stove_id and is the last match by input position (every
later record has a different stove_id); it returns none exactly when no
record matches; and on two matching records where the later-position one
has the earlier timestamp, the later-position one is returned, showing
selection is by position and not by timestamp. -/
theorem get_latest_cycle_spec (df : List MeasurementRecord)
    (sid : String) :
    (∀ r, get_latest_cycle df sid = some r →
      r.stove_id = sid ∧
        ∃ pre post, df = pre ++ r :: post ∧
          ∀ x ∈ post, x.stove_id ≠ sid) ∧
    (get_latest_cycle df sid = none ↔ ∀ r ∈ df, r.stove_id ≠ sid) ∧
    (∀ t₁ t₂ x₁ x₂ : ℚ, t₂ < t₁ →
      get_latest_cycle [⟨sid, t₁, x₁⟩, ⟨sid, t₂, x₂⟩] sid
        = some ⟨sid, t₂, x₂⟩) := by
  refine ⟨fun r h => ?_, ?_, fun t₁ t₂ x₁ x₂ ht => ?_⟩
  · unfold get_latest_cycle at h
    obtain ⟨hpr, pre, post, heq, hpost⟩ :=
      getLast?_filter_eq_some (fun r => r.stove_id == sid) df r h
    refine ⟨by simpa using hpr, pre, post, heq, fun x hx => ?_⟩
    have hfx := hpost x hx
    simpa using hfx
  · unfold get_latest_cycle
    rw [List.getLast?_eq_none_iff, List.filter_eq_nil_iff]
    constructor
    · intro hall r hr
      have hb := hall r hr
      simpa using hb
    · intro hall r hr
      simpa using hall r hr
  · unfold get_latest_cycle
    simp

/-- Witness for C7: on two records for stove S1 where the second-position
record has the earlier timestamp 3, the second-position record is
returned. -/
theorem get_latest_cycle_spec_witness :
    get_latest_cycle
        [(⟨"S1", 9, 1⟩ : MeasurementRecord), ⟨"S1", 3, 2⟩] "S1"
      = some ⟨"S1", 3, 2⟩ :=
  (get_latest_cycle_spec [] "S1").2.2 9 3 1 2 (by norm_num)

end Steel
